import Mathlib

/-!
Shallow embedding of the point-cloud-annotator persistence service.

The repository has two backend variants:
* the networked variant (`src/backend/src/index.js`): an AWS Lambda handler
  over two DynamoDB tables, and
* the local variant (`src/unnamed/part_000`): an Express server over a JSON
  file holding a single `annotations` array.

JavaScript values that flow through the handlers are modelled by `JsVal`;
numbers are modelled as integers (every claim treats them opaquely), the
`new Date().toISOString()` timestamps and `randomUUID()` identifiers are
passed in as explicit string parameters, and each store (a DynamoDB table,
or the local `db.data.annotations` array) is a list of `JsVal` items.
-/

/-- A JavaScript value as seen by the two backend variants.  Numbers are
modelled as integers; the claims under study never compute with them. -/
inductive JsVal where
  | jsUndefined : JsVal
  | jsNull : JsVal
  | jsBool (b : Bool) : JsVal
  | jsNum (n : Int) : JsVal
  | jsStr (s : String) : JsVal
  | jsObj (fields : List (String × JsVal)) : JsVal
  | jsArr (elems : List JsVal) : JsVal

/-- Property lookup on an object field list: first binding wins (JS objects
have unique keys, so the first binding is the only one). -/
def getF : List (String × JsVal) → String → JsVal
  | [], _ => .jsUndefined
  | (k, v) :: rest, key => if k = key then v else getF rest key

/-- JS property access `v.key`.  On non-objects the handlers only access
properties behind truthiness guards, so the `jsUndefined` default is the
behaviour actually exercised. -/
def JsVal.getField : JsVal → String → JsVal
  | .jsObj fs, key => getF fs key
  | _, _ => .jsUndefined

/-- JS truthiness (`if (v)`).  `undefined`, `null`, `false`, `0` and `""`
are falsy; objects and arrays are truthy. -/
def JsVal.truthy : JsVal → Bool
  | .jsUndefined => false
  | .jsNull => false
  | .jsBool b => b
  | .jsNum n => n ≠ 0
  | .jsStr s => s ≠ ""
  | .jsObj _ => true
  | .jsArr _ => true

/-- `typeof v === 'number'`. -/
def JsVal.isNumber : JsVal → Bool
  | .jsNum _ => true
  | _ => false

/-- `typeof v === 'string'`. -/
def JsVal.isString : JsVal → Bool
  | .jsStr _ => true
  | _ => false

/-- The underlying string of a string value (only used behind `isString`
guards). -/
def JsVal.asString : JsVal → String
  | .jsStr s => s
  | _ => ""

/-- The field list of an object (stored records are always objects). -/
def JsVal.fieldsOf : JsVal → List (String × JsVal)
  | .jsObj fs => fs
  | _ => []

/-- Property assignment `o[key] = v` (also the effect of an object spread
override and of a DynamoDB `SET` on one attribute): replace the binding in
place if the key is present, otherwise append it. -/
def setF : List (String × JsVal) → String → JsVal → List (String × JsVal)
  | [], key, v => [(key, v)]
  | (k, w) :: rest, key, v =>
    if k = key then (key, v) :: rest else (k, w) :: setF rest key v

/-- `item.id === id` (DynamoDB key match / the local `findIndex` test):
true iff the item's `id` attribute is the string `id`. -/
def keyMatch (it : JsVal) (id : String) : Bool :=
  match it.getField "id" with
  | .jsStr s => s = id
  | _ => false

/-- The DynamoDB filter expression `pointCloudId = :pcId` where `:pcId` is
the string `pcId`: a typed equality, so a `null` (or absent) attribute
never matches a string. -/
def pcMatch (it : JsVal) (pcId : String) : Bool :=
  match it.getField "pointCloudId" with
  | .jsStr s => s = pcId
  | _ => false

/-- A transport-level response.  `body = some v` means the response body is
the JSON serialization of `v` (note `JSON.stringify(null)` is the four-byte
text `null`); `body = none` means no body bytes are written (the local
variant's bare `res.send()`, or the framework fallback page whose HTML
content is not modelled). -/
structure HttpResp where
  status : Nat
  body : Option JsVal

/-- The networked variant's `response` helper: every response it builds
JSON-serializes its body argument (headers are constant and not modelled). -/
def response (status : Nat) (body : JsVal) : HttpResp :=
  { status := status, body := some body }

/-- A one-field error object `{ error: msg }`. -/
def errObj (msg : String) : JsVal :=
  .jsObj [("error", .jsStr msg)]

/-- A hexadecimal digit, case-insensitive (the `[0-9a-f]` class under the
`i` flag). -/
def isHexChar (c : Char) : Bool :=
  ('0' ≤ c && c ≤ '9') || ('a' ≤ c && c ≤ 'f') || ('A' ≤ c && c ≤ 'F')

/-- `UUID_REGEX.test(s)` for
`/^[0-9a-f]{8}-[0-9a-f]{4}-[0-9a-f]{4}-[0-9a-f]{4}-[0-9a-f]{12}$/i`
(identical in both variants): 36 characters, hyphens at positions
8, 13, 18 and 23, hexadecimal digits everywhere else. -/
def uuidRegexTest (s : String) : Bool :=
  let cs := s.data
  cs.length = 36 &&
    (List.range 36).all fun i =>
      if i = 8 || i = 13 || i = 18 || i = 23 then cs.getD i ' ' = '-'
      else isHexChar (cs.getD i ' ')

/-- Truthiness of the optional `pointCloudId` query value after the
handler's `queryStringParameters?.pointCloudId || null` (an absent or empty
string both become `null`, hence falsy). -/
def strTruthy : Option String → Bool
  | some s => s ≠ ""
  | none => false

/-- Replace the first item whose `id` attribute is `id` by `f` of it (the
DynamoDB keyed update, and the local `db.data.annotations[index] = ...`;
keys are unique in both stores, so first match is the only match). -/
def replaceFirst (items : List JsVal) (id : String) (f : JsVal → JsVal) :
    List JsVal :=
  match items with
  | [] => []
  | it :: rest =>
    if keyMatch it id then f it :: rest else it :: replaceFirst rest id f

/-- Remove the first item whose `id` attribute is `id` (DynamoDB keyed
delete, and the local `splice(index, 1)`). -/
def removeFirst (items : List JsVal) (id : String) : List JsVal :=
  match items with
  | [] => []
  | it :: rest => if keyMatch it id then rest else it :: removeFirst rest id

/-- The whitespace characters JS `String.prototype.trim` strips, restricted
to the ASCII ones a path or name field can realistically carry (the exotic
Unicode space classes are not modelled). -/
def isWsChar (c : Char) : Bool :=
  c = ' ' || c = '\t' || c = '\n' || c = '\r' || c = '\x0b' || c = '\x0c'

/-- JS `s.trim()`: strip leading and trailing whitespace. -/
def jsTrim (s : String) : String :=
  String.mk ((s.data.dropWhile isWsChar).reverse.dropWhile isWsChar).reverse

/-- JS `s.endsWith('/')`: the last character is `/`. -/
def endsWithSlash (s : String) : Bool :=
  match s.data.getLast? with
  | some c => c = '/'
  | none => false

/-! ## Networked variant (`src/backend/src/index.js`) -/

/-- `getAnnotations(pointCloudId)`: scan, with a `pointCloudId = :pcId`
filter expression when the argument is truthy. -/
def getAnns (items : List JsVal) (pointCloudId : Option String) : HttpResp :=
  if strTruthy pointCloudId then
    response 200 (.jsArr (items.filter fun it =>
      pcMatch it (pointCloudId.getD "")))
  else
    response 200 (.jsArr items)

/-- `createAnnotation(body)`.  `body = none` models a JSON parse failure.
A truthy non-string `text` makes `Buffer.byteLength` throw; the handler's
catch-all turns that into the 500 modelled here. -/
def createAnn (items : List JsVal) (body : Option JsVal) (newId now : String) :
    HttpResp × List JsVal :=
  match body with
  | none => (response 400 (errObj "Invalid JSON body"), items)
  | some data =>
    let pos := data.getField "position"
    if !pos.truthy || !(pos.getField "x").isNumber
        || !(pos.getField "y").isNumber || !(pos.getField "z").isNumber then
      (response 400 (errObj "Invalid position coordinates"), items)
    else
      let text := if (data.getField "text").truthy then data.getField "text"
                  else .jsStr ""
      if !text.isString then
        (response 500 (errObj "Internal server error"), items)
      else if text.asString.utf8ByteSize > 256 then
        (response 400 (errObj "Text exceeds 256 bytes limit"), items)
      else
        let ann : JsVal := .jsObj [
          ("id", .jsStr newId),
          ("pointCloudId",
            if (data.getField "pointCloudId").truthy then
              data.getField "pointCloudId"
            else .jsNull),
          ("position", .jsObj [("x", pos.getField "x"),
            ("y", pos.getField "y"), ("z", pos.getField "z")]),
          ("text", text),
          ("cameraPosition",
            if (data.getField "cameraPosition").truthy then
              data.getField "cameraPosition"
            else .jsNull),
          ("cameraTarget",
            if (data.getField "cameraTarget").truthy then
              data.getField "cameraTarget"
            else .jsNull),
          ("createdAt", .jsStr now)]
        (response 201 ann, items ++ [ann])

/-- The record produced by the networked `UpdateCommand`'s
`SET #text = :text, updatedAt = :updatedAt` on an existing item
(`ReturnValues: 'ALL_NEW'` returns exactly this record). -/
def updRec (textVal : JsVal) (now : String) (it : JsVal) : JsVal :=
  .jsObj (setF (setF it.fieldsOf "text" textVal) "updatedAt" (.jsStr now))

/-- `updateAnnotation(id, body)`.  The `UpdateCommand` carries NO
`ConditionExpression`, so DynamoDB upserts: when no item with that key
exists it creates `{id, text, updatedAt}` and the command succeeds — the
`ConditionalCheckFailedException` catch (which would return 404) is
unreachable. -/
def updateAnn (items : List JsVal) (id : String) (body : Option JsVal)
    (now : String) : HttpResp × List JsVal :=
  match body with
  | none => (response 400 (errObj "Invalid JSON body"), items)
  | some data =>
    let t := data.getField "text"
    if t.truthy && !t.isString then
      (response 500 (errObj "Internal server error"), items)
    else if t.truthy && t.asString.utf8ByteSize > 256 then
      (response 400 (errObj "Text exceeds 256 bytes limit"), items)
    else
      let textVal := if t.truthy then t else .jsStr ""
      match items.find? (fun it => keyMatch it id) with
      | some it =>
        (response 200 (updRec textVal now it),
         replaceFirst items id (updRec textVal now))
      | none =>
        let fresh : JsVal := .jsObj [("id", .jsStr id), ("text", textVal),
          ("updatedAt", .jsStr now)]
        (response 200 fresh, items ++ [fresh])

/-- `deleteAnnotation(id)`: `DeleteCommand` guarded by
`ConditionExpression: 'attribute_exists(id)'`; the conditional failure is
mapped to 404. -/
def deleteAnn (items : List JsVal) (id : String) : HttpResp × List JsVal :=
  if items.any (fun it => keyMatch it id) then
    (response 204 .jsNull, removeFirst items id)
  else
    (response 404 (errObj "Annotation not found"), items)

/-- `getPointClouds()`: unfiltered scan of the point-clouds table. -/
def getPointClouds (items : List JsVal) : HttpResp :=
  response 200 (.jsArr items)

/-- `createPointCloud(body)`: requires truthy string `name` and `path`
(checked BEFORE trimming), trims both, and appends a trailing `/` to the
path when absent. -/
def createPointCloud (items : List JsVal) (body : Option JsVal)
    (newId now : String) : HttpResp × List JsVal :=
  match body with
  | none => (response 400 (errObj "Invalid JSON body"), items)
  | some data =>
    let nameV := data.getField "name"
    if !nameV.truthy || !nameV.isString then
      (response 400 (errObj "Name is required"), items)
    else
      let pathV := data.getField "path"
      if !pathV.truthy || !pathV.isString then
        (response 400 (errObj "Path is required"), items)
      else
        let path0 := jsTrim pathV.asString
        let path := if endsWithSlash path0 then path0 else path0 ++ "/"
        let pc : JsVal := .jsObj [
          ("id", .jsStr newId),
          ("name", .jsStr (jsTrim nameV.asString)),
          ("path", .jsStr path),
          ("createdAt", .jsStr now)]
        (response 201 pc, items ++ [pc])

/-- `deletePointCloud(id)`: conditional delete exactly like
`deleteAnnotation`, on the point-clouds table. -/
def deletePointCloud (items : List JsVal) (id : String) :
    HttpResp × List JsVal :=
  if items.any (fun it => keyMatch it id) then
    (response 204 .jsNull, removeFirst items id)
  else
    (response 404 (errObj "Point cloud not found"), items)

/-- HTTP method of a request. -/
inductive Method where
  | get | post | put | delete

/-- The Lambda `handler`'s routing, over a structured route descriptor.
`path` is the request path split at `/` (a trailing slash yields a final
empty segment, so `startsWith('/annotations/')` corresponds to head
segment `"annotations"` with at least two segments).  `pathId` is
`pathParameters?.id`, `query` is `queryStringParameters?.pointCloudId`,
and `body = none` models an unparseable JSON body.  Returns the response
together with the two resulting stores (annotations, point clouds). -/
def netDispatch (anns pcs : List JsVal) (m : Method) (path : List String)
    (pathId : Option String) (query : Option String) (body : Option JsVal)
    (newId now : String) : HttpResp × List JsVal × List JsVal :=
  match m, path with
  | .get, ["annotations"] => (getAnns anns query, anns, pcs)
  | .post, ["annotations"] =>
    let r := createAnn anns body newId now
    (r.1, r.2, pcs)
  | .put, "annotations" :: _ :: _ =>
    match pathId with
    | none => (response 400 (errObj "Annotation ID required"), anns, pcs)
    | some id =>
      if !uuidRegexTest id then
        (response 400 (errObj "Invalid annotation ID format"), anns, pcs)
      else
        let r := updateAnn anns id body now
        (r.1, r.2, pcs)
  | .delete, "annotations" :: _ :: _ =>
    match pathId with
    | none => (response 400 (errObj "Annotation ID required"), anns, pcs)
    | some id =>
      if !uuidRegexTest id then
        (response 400 (errObj "Invalid annotation ID format"), anns, pcs)
      else
        let r := deleteAnn anns id
        (r.1, r.2, pcs)
  | .get, ["pointclouds"] => (getPointClouds pcs, anns, pcs)
  | .post, ["pointclouds"] =>
    let r := createPointCloud pcs body newId now
    (r.1, anns, r.2)
  | .delete, "pointclouds" :: _ :: _ =>
    match pathId with
    | none => (response 400 (errObj "Point cloud ID required"), anns, pcs)
    | some id =>
      if !uuidRegexTest id then
        (response 400 (errObj "Invalid point cloud ID format"), anns, pcs)
      else
        let r := deletePointCloud pcs id
        (r.1, anns, r.2)
  | _, _ => (response 404 (errObj "Not found"), anns, pcs)

/-! ## Local variant (`src/unnamed/part_000`) -/

/-- `POST /annotations` in the local server: same validation as the
networked variant, but the stored record has NO `pointCloudId` field (the
handler never reads it from the request). -/
def localCreateAnn (anns : List JsVal) (data : JsVal) (newId now : String) :
    HttpResp × List JsVal :=
  let pos := data.getField "position"
  if !pos.truthy || !(pos.getField "x").isNumber
      || !(pos.getField "y").isNumber || !(pos.getField "z").isNumber then
    (response 400 (errObj "Invalid position coordinates"), anns)
  else
    let text := if (data.getField "text").truthy then data.getField "text"
                else .jsStr ""
    if !text.isString then
      (response 500 (errObj "Failed to create annotation"), anns)
    else if text.asString.utf8ByteSize > 256 then
      (response 400 (errObj "Text exceeds 256 bytes limit"), anns)
    else
      let ann : JsVal := .jsObj [
        ("id", .jsStr newId),
        ("position", .jsObj [("x", pos.getField "x"),
          ("y", pos.getField "y"), ("z", pos.getField "z")]),
        ("text", text),
        ("cameraPosition",
          if (data.getField "cameraPosition").truthy then
            data.getField "cameraPosition"
          else .jsNull),
        ("cameraTarget",
          if (data.getField "cameraTarget").truthy then
            data.getField "cameraTarget"
          else .jsNull),
        ("createdAt", .jsStr now)]
      (response 201 ann, anns ++ [ann])

/-- The record written by the local update's spread
`{...old, text: text !== undefined ? text : old.text, updatedAt}`. -/
def localUpdRec (t : JsVal) (now : String) (it : JsVal) : JsVal :=
  .jsObj (setF (setF it.fieldsOf "text"
    (match t with
     | .jsUndefined => it.getField "text"
     | v => v)) "updatedAt" (.jsStr now))

/-- `PUT /annotations/:id` in the local server: UUID-format check, text
byte-length check, explicit existence lookup (404 when absent), in-place
update of the found record. -/
def localUpdateAnn (anns : List JsVal) (id : String) (data : JsVal)
    (now : String) : HttpResp × List JsVal :=
  if !uuidRegexTest id then
    (response 400 (errObj "Invalid annotation ID format"), anns)
  else
    let t := data.getField "text"
    if t.truthy && !t.isString then
      (response 500 (errObj "Failed to update annotation"), anns)
    else if t.truthy && t.asString.utf8ByteSize > 256 then
      (response 400 (errObj "Text exceeds 256 bytes limit"), anns)
    else
      match anns.find? (fun it => keyMatch it id) with
      | none => (response 404 (errObj "Annotation not found"), anns)
      | some it =>
        (response 200 (localUpdRec t now it),
         replaceFirst anns id (localUpdRec t now))

/-- `DELETE /annotations/:id` in the local server: UUID-format check,
explicit existence lookup (404 when absent), `splice` removal, and a bare
`res.status(204).send()` — an actually empty body. -/
def localDeleteAnn (anns : List JsVal) (id : String) : HttpResp × List JsVal :=
  if !uuidRegexTest id then
    (response 400 (errObj "Invalid annotation ID format"), anns)
  else if anns.any (fun it => keyMatch it id) then
    ({ status := 204, body := none }, removeFirst anns id)
  else
    (response 404 (errObj "Annotation not found"), anns)

/-- The local Express server's routing.  It registers ONLY the annotation
routes and `/health`; there are no point-cloud routes, and the
`GET /annotations` handler never reads `req.query`, so the `pointCloudId`
filter is ignored.  Unmatched requests hit the Express fallback: status
404 with an HTML error page (content not modelled). -/
def localDispatch (anns : List JsVal) (m : Method) (path : List String)
    (_query : Option String) (body : JsVal) (newId now : String) :
    HttpResp × List JsVal :=
  match m, path with
  | .get, ["annotations"] => (response 200 (.jsArr anns), anns)
  | .post, ["annotations"] => localCreateAnn anns body newId now
  | .put, ["annotations", id] => localUpdateAnn anns id body now
  | .delete, ["annotations", id] => localDeleteAnn anns id
  | .get, ["health"] =>
    (response 200 (.jsObj [("status", .jsStr "ok"),
      ("timestamp", .jsStr now)]), anns)
  | _, _ => ({ status := 404, body := none }, anns)

/-! ## Helper lemmas -/

theorem getF_fieldsOf (it : JsVal) (k : String) :
    getF it.fieldsOf k = it.getField k := by
  cases it <;> rfl

theorem getF_setF_ne (fs : List (String × JsVal)) (key k : String) (v : JsVal)
    (h : k ≠ key) : getF (setF fs key v) k = getF fs k := by
  induction fs with
  | nil => simp [setF, getF, Ne.symm h]
  | cons p rest ih =>
    obtain ⟨k0, w⟩ := p
    by_cases h0 : k0 = key
    · subst h0
      simp [setF, getF, Ne.symm h]
    · by_cases h1 : k0 = k
      · simp [setF, getF, h0, h1, h]
      · simp [setF, getF, h0, h1, ih]

theorem getField_updRec_ne (tv : JsVal) (now : String) (it : JsVal)
    (k : String) (h1 : k ≠ "text") (h2 : k ≠ "updatedAt") :
    (updRec tv now it).getField k = it.getField k := by
  show getF (setF (setF it.fieldsOf "text" tv) "updatedAt" (.jsStr now)) k
      = it.getField k
  rw [getF_setF_ne _ _ _ _ h2, getF_setF_ne _ _ _ _ h1, getF_fieldsOf]

theorem getField_localUpdRec_ne (t : JsVal) (now : String) (it : JsVal)
    (k : String) (h1 : k ≠ "text") (h2 : k ≠ "updatedAt") :
    (localUpdRec t now it).getField k = it.getField k := by
  show getF (setF (setF it.fieldsOf "text"
      (match t with | .jsUndefined => it.getField "text" | v => v))
      "updatedAt" (.jsStr now)) k = it.getField k
  rw [getF_setF_ne _ _ _ _ h2, getF_setF_ne _ _ _ _ h1, getF_fieldsOf]

theorem keyMatch_updRec (tv : JsVal) (now : String) (it : JsVal)
    (id : String) : keyMatch (updRec tv now it) id = keyMatch it id := by
  unfold keyMatch
  rw [getField_updRec_ne _ _ _ _ (by decide) (by decide)]

theorem keyMatch_localUpdRec (t : JsVal) (now : String) (it : JsVal)
    (id : String) : keyMatch (localUpdRec t now it) id = keyMatch it id := by
  unfold keyMatch
  rw [getField_localUpdRec_ne _ _ _ _ (by decide) (by decide)]

theorem find?_replaceFirst (items : List JsVal) (id : String)
    (f : JsVal → JsVal) (hf : ∀ it, keyMatch (f it) id = keyMatch it id)
    (r : JsVal) (h : items.find? (fun it => keyMatch it id) = some r) :
    (replaceFirst items id f).find? (fun it => keyMatch it id)
      = some (f r) := by
  induction items with
  | nil => simp [List.find?] at h
  | cons it rest ih =>
    cases hk : keyMatch it id with
    | true =>
      simp only [List.find?, hk] at h
      injection h with h
      subst h
      simp [replaceFirst, List.find?, hk, hf]
    | false =>
      simp only [List.find?, hk] at h
      simp only [replaceFirst, hk, Bool.false_eq_true, if_false, List.find?]
      exact ih h

theorem any_removeFirst (items : List JsVal) (id : String)
    (hc : items.countP (fun it => keyMatch it id) ≤ 1) :
    (removeFirst items id).any (fun it => keyMatch it id) = false := by
  induction items with
  | nil => simp [removeFirst]
  | cons it rest ih =>
    rw [List.countP_cons] at hc
    cases hk : keyMatch it id with
    | true =>
      have h0 : rest.countP (fun x => keyMatch x id) = 0 := by
        simp only [hk, if_true] at hc
        omega
      simp only [removeFirst, hk, if_true]
      exact List.any_eq_false.mpr fun x hx => by
        simpa using List.countP_eq_zero.mp h0 x hx
    | false =>
      have hr : (removeFirst rest id).any (fun x => keyMatch x id) = false := by
        apply ih
        simp [hk] at hc
        omega
      simp [removeFirst, hk, hr]

theorem pcMatch_iff (it : JsVal) (pcId : String) :
    pcMatch it pcId = true ↔ it.getField "pointCloudId" = .jsStr pcId := by
  unfold pcMatch
  cases h : it.getField "pointCloudId" <;> simp

/-! ## Claims -/

/-- Claim C1 (code bug in the networked variant): the `UpdateCommand` in
`updateAnnotation` carries no `ConditionExpression`, so updating the
well-formed UUID id `11111111-1111-1111-1111-111111111111` against an
empty store does not return 404: DynamoDB upserts a fresh
`{id, text, updatedAt}` record and the handler answers 200, and the record
then exists in the store.  The local variant behaves as the claim states
(404, no record created), witnessing the divergence between the variants
that the claim rules out. -/
theorem c1_networked_update_upserts_on_missing_id :
    uuidRegexTest "11111111-1111-1111-1111-111111111111" = true ∧
    updateAnn [] "11111111-1111-1111-1111-111111111111"
        (some (.jsObj [("text", .jsStr "hi")])) "2024-01-01T00:00:00.000Z"
      = (response 200
          (.jsObj [("id", .jsStr "11111111-1111-1111-1111-111111111111"),
            ("text", .jsStr "hi"),
            ("updatedAt", .jsStr "2024-01-01T00:00:00.000Z")]),
         [.jsObj [("id", .jsStr "11111111-1111-1111-1111-111111111111"),
            ("text", .jsStr "hi"),
            ("updatedAt", .jsStr "2024-01-01T00:00:00.000Z")]]) ∧
    localUpdateAnn [] "11111111-1111-1111-1111-111111111111"
        (.jsObj [("text", .jsStr "hi")]) "2024-01-01T00:00:00.000Z"
      = (response 404 (errObj "Annotation not found"), []) :=
  ⟨by decide, rfl, rfl⟩

/-- Claim C5 counterexample: a whitespace-only `name` is NOT rejected —
`" "` is truthy and a string, so `createPointCloud` accepts it with 201
and persists a record whose stored name is the empty string (and the
whitespace-only path `" "` is likewise accepted, stored as `"/"`),
contradicting the claimed `MissingName`/`MissingPath` rejection. -/
theorem c5_counterexample_whitespace_name_accepted :
    createPointCloud []
        (some (.jsObj [("name", .jsStr " "), ("path", .jsStr " ")]))
        "33333333-3333-3333-3333-333333333333" "2024-01-01T00:00:00.000Z"
      = (response 201 (.jsObj [
          ("id", .jsStr "33333333-3333-3333-3333-333333333333"),
          ("name", .jsStr ""),
          ("path", .jsStr "/"),
          ("createdAt", .jsStr "2024-01-01T00:00:00.000Z")]),
        [.jsObj [
          ("id", .jsStr "33333333-3333-3333-3333-333333333333"),
          ("name", .jsStr ""),
          ("path", .jsStr "/"),
          ("createdAt", .jsStr "2024-01-01T00:00:00.000Z")]]) ∧
    (201 : Nat) ≠ 400 :=
  ⟨rfl, by decide⟩

/-- Claim C5 (amended): point-cloud create validation checks `name` and
`path` for truthiness BEFORE trimming.  A missing, non-string or empty
`name` is rejected with 400 `Name is required` and no record is stored;
with `name` acceptable, a missing, non-string or empty `path` is rejected
with 400 `Path is required`; but any non-empty strings pass — including
whitespace-only ones — and the record is stored with the trimmed name and
normalized path (so name `" "` is stored as `""` and path `" "` as
`"/"`). -/
theorem c5_pointcloud_validation_before_trim :
    (∀ (items : List JsVal) (fs : List (String × JsVal)) (i n : String),
      (((JsVal.jsObj fs).getField "name").truthy = false ∨
          ((JsVal.jsObj fs).getField "name").isString = false) →
      createPointCloud items (some (.jsObj fs)) i n
        = (response 400 (errObj "Name is required"), items)) ∧
    (∀ (items : List JsVal) (fs : List (String × JsVal)) (i n : String),
      ((JsVal.jsObj fs).getField "name").truthy = true →
      ((JsVal.jsObj fs).getField "name").isString = true →
      (((JsVal.jsObj fs).getField "path").truthy = false ∨
          ((JsVal.jsObj fs).getField "path").isString = false) →
      createPointCloud items (some (.jsObj fs)) i n
        = (response 400 (errObj "Path is required"), items)) ∧
    (∀ (items : List JsVal) (s t i n : String), s ≠ "" → t ≠ "" →
      createPointCloud items
          (some (.jsObj [("name", .jsStr s), ("path", .jsStr t)])) i n
        = (response 201 (.jsObj [("id", .jsStr i),
            ("name", .jsStr (jsTrim s)),
            ("path", .jsStr (if endsWithSlash (jsTrim t) then jsTrim t
              else jsTrim t ++ "/")),
            ("createdAt", .jsStr n)]),
          items ++ [.jsObj [("id", .jsStr i),
            ("name", .jsStr (jsTrim s)),
            ("path", .jsStr (if endsWithSlash (jsTrim t) then jsTrim t
              else jsTrim t ++ "/")),
            ("createdAt", .jsStr n)]])) := by
  refine ⟨?_, ?_, ?_⟩
  · intro items fs i n h
    rcases h with h | h <;>
      simp [createPointCloud, h]
  · intro items fs i n h1 h2 h3
    rcases h3 with h3 | h3 <;>
      simp [createPointCloud, h1, h2, h3]
  · intro items s t i n hs ht
    simp [createPointCloud, JsVal.getField, getF, JsVal.truthy,
      JsVal.isString, JsVal.asString, hs, ht]

/-- Claim C8 (confirmed): for every valid point-cloud create payload the
stored path is the trimmed input path with `/` appended exactly when the
trimmed path does not already end in `/` (so normalization is the identity
on already-normalized paths); in particular `"data/set"` is stored as
`"data/set/"` and `"data/set/"` is stored unchanged. -/
theorem c8_path_trailing_slash_normalization :
    ∀ (items : List JsVal) (s t i n : String), s ≠ "" → t ≠ "" →
      ((createPointCloud items
          (some (.jsObj [("name", .jsStr s), ("path", .jsStr t)])) i n).1.status
        = 201 ∧
       (∃ rec, (createPointCloud items
            (some (.jsObj [("name", .jsStr s), ("path", .jsStr t)])) i n).2
          = items ++ [rec] ∧
        rec.getField "path"
          = .jsStr (if endsWithSlash (jsTrim t) then jsTrim t
              else jsTrim t ++ "/") ∧
        (endsWithSlash (jsTrim t) = true →
          rec.getField "path" = .jsStr (jsTrim t)))) ∧
      (createPointCloud []
          (some (.jsObj [("name", .jsStr "n"), ("path", .jsStr "data/set")]))
          "i" "T").2
        = [.jsObj [("id", .jsStr "i"), ("name", .jsStr "n"),
            ("path", .jsStr "data/set/"), ("createdAt", .jsStr "T")]] ∧
      (createPointCloud []
          (some (.jsObj [("name", .jsStr "n"), ("path", .jsStr "data/set/")]))
          "i" "T").2
        = [.jsObj [("id", .jsStr "i"), ("name", .jsStr "n"),
            ("path", .jsStr "data/set/"), ("createdAt", .jsStr "T")]] := by
  intro items s t i n hs ht
  refine ⟨⟨?_, ?_⟩, rfl, rfl⟩
  · simp [createPointCloud, JsVal.getField, getF, JsVal.truthy,
      JsVal.isString, JsVal.asString, response, hs, ht]
  · refine ⟨.jsObj [("id", .jsStr i), ("name", .jsStr (jsTrim s)),
      ("path", .jsStr (if endsWithSlash (jsTrim t) then jsTrim t
        else jsTrim t ++ "/")),
      ("createdAt", .jsStr n)], ?_, ?_, ?_⟩
    · simp [createPointCloud, JsVal.getField, getF, JsVal.truthy,
        JsVal.isString, JsVal.asString, hs, ht]
    · simp [JsVal.getField, getF]
    · intro he
      simp [JsVal.getField, getF, he]

/-- Witness for C8 at the concrete payload `{name: "n", path: "data/set"}`. -/
theorem c8_witness :
    (createPointCloud []
        (some (.jsObj [("name", .jsStr "n"), ("path", .jsStr "data/set")]))
        "44444444-4444-4444-4444-444444444444" "T").1.status = 201 :=
  (c8_path_trailing_slash_normalization [] "n" "data/set"
      "44444444-4444-4444-4444-444444444444" "T"
      (by decide) (by decide)).1.1

/-- Claim C3 (confirmed): deleting a well-formed UUID id with no stored
record fails with 404 and an `... not found` body, leaving the store
unchanged — in the networked annotation delete (conditional
`DeleteCommand`), the local annotation delete (explicit lookup) and the
networked point-cloud delete — while deleting an existing id succeeds
with 204, and an immediately repeated delete of the same id observes 404,
not silent success.  (The local variant registers no point-cloud routes
and its store holds no point clouds, so the point-cloud half concerns the
networked variant; see claim C7 for the local route gap.)  The
well-formedness hypotheses — at most one record per id — hold by DynamoDB
key uniqueness, and locally because records are created with fresh
generated UUIDs. -/
theorem c3_delete_missing_id_not_found :
    ∀ (anns pcs : List JsVal) (id : String),
      uuidRegexTest id = true →
      anns.countP (fun it => keyMatch it id) ≤ 1 →
      pcs.countP (fun it => keyMatch it id) ≤ 1 →
      (anns.any (fun it => keyMatch it id) = false →
        deleteAnn anns id
          = (response 404 (errObj "Annotation not found"), anns) ∧
        localDeleteAnn anns id
          = (response 404 (errObj "Annotation not found"), anns)) ∧
      (anns.any (fun it => keyMatch it id) = true →
        (deleteAnn anns id).1.status = 204 ∧
        (localDeleteAnn anns id).1.status = 204 ∧
        (deleteAnn (deleteAnn anns id).2 id).1.status = 404 ∧
        (localDeleteAnn (localDeleteAnn anns id).2 id).1.status = 404) ∧
      (pcs.any (fun it => keyMatch it id) = false →
        deletePointCloud pcs id
          = (response 404 (errObj "Point cloud not found"), pcs)) ∧
      (pcs.any (fun it => keyMatch it id) = true →
        (deletePointCloud pcs id).1.status = 204 ∧
        (deletePointCloud (deletePointCloud pcs id).2 id).1.status = 404) := by
  intro anns pcs id huuid hca hcp
  refine ⟨?_, ?_, ?_, ?_⟩
  · intro ha
    constructor
    · simp [deleteAnn, ha]
    · simp [localDeleteAnn, huuid, ha]
  · intro ha
    have hrem := any_removeFirst anns id hca
    refine ⟨?_, ?_, ?_, ?_⟩
    · simp [deleteAnn, ha, response]
    · simp [localDeleteAnn, huuid, ha]
    · simp [deleteAnn, ha, hrem, response]
    · simp [localDeleteAnn, huuid, ha, hrem, response]
  · intro hp
    simp [deletePointCloud, hp]
  · intro hp
    have hrem := any_removeFirst pcs id hcp
    constructor
    · simp [deletePointCloud, hp, response]
    · simp [deletePointCloud, hp, hrem, response]

/-- Witness for C3: a store holding the single record with id
`aaaaaaaa-aaaa-aaaa-aaaa-aaaaaaaaaaaa` answers 204 to the first delete and
404 to the second, in both variants. -/
theorem c3_witness :
    (deleteAnn [.jsObj [("id", .jsStr "aaaaaaaa-aaaa-aaaa-aaaa-aaaaaaaaaaaa")]]
        "aaaaaaaa-aaaa-aaaa-aaaa-aaaaaaaaaaaa").1.status = 204 ∧
    (deleteAnn
        (deleteAnn [.jsObj [("id", .jsStr "aaaaaaaa-aaaa-aaaa-aaaa-aaaaaaaaaaaa")]]
          "aaaaaaaa-aaaa-aaaa-aaaa-aaaaaaaaaaaa").2
        "aaaaaaaa-aaaa-aaaa-aaaa-aaaaaaaaaaaa").1.status = 404 ∧
    (localDeleteAnn
        (localDeleteAnn [.jsObj [("id", .jsStr "aaaaaaaa-aaaa-aaaa-aaaa-aaaaaaaaaaaa")]]
          "aaaaaaaa-aaaa-aaaa-aaaa-aaaaaaaaaaaa").2
        "aaaaaaaa-aaaa-aaaa-aaaa-aaaaaaaaaaaa").1.status = 404 := by
  have h := c3_delete_missing_id_not_found
    [.jsObj [("id", .jsStr "aaaaaaaa-aaaa-aaaa-aaaa-aaaaaaaaaaaa")]] []
    "aaaaaaaa-aaaa-aaaa-aaaa-aaaaaaaaaaaa" (by decide) (by decide) (by decide)
  exact ⟨(h.2.1 (by decide)).1, (h.2.1 (by decide)).2.2.1,
    (h.2.1 (by decide)).2.2.2⟩

/-- A concrete valid `position` payload used as a fixture in statements. -/
def posXYZ : JsVal :=
  .jsObj [("x", .jsNum 1), ("y", .jsNum 2), ("z", .jsNum 3)]

theorem createAnn_status_text (items : List JsVal) (s newId now : String) :
    (createAnn items (some (.jsObj [("position", posXYZ), ("text", .jsStr s)]))
        newId now).1.status
      = if s.utf8ByteSize ≤ 256 then 201 else 400 := by
  by_cases hs : s = ""
  · subst hs
    have h0 : ("" : String).utf8ByteSize = 0 := rfl
    simp [createAnn, posXYZ, JsVal.getField, getF, JsVal.truthy,
      JsVal.isNumber, JsVal.isString, JsVal.asString, response, h0]
  · by_cases hb : s.utf8ByteSize ≤ 256
    · simp [createAnn, posXYZ, JsVal.getField, getF, JsVal.truthy,
        JsVal.isNumber, JsVal.isString, JsVal.asString, response, hs, hb,
        Nat.not_lt.mpr hb]
    · simp [createAnn, posXYZ, JsVal.getField, getF, JsVal.truthy,
        JsVal.isNumber, JsVal.isString, JsVal.asString, response, hs, hb,
        Nat.lt_of_not_le hb]

theorem localCreateAnn_status_text (anns : List JsVal) (s newId now : String) :
    (localCreateAnn anns (.jsObj [("position", posXYZ), ("text", .jsStr s)])
        newId now).1.status
      = if s.utf8ByteSize ≤ 256 then 201 else 400 := by
  by_cases hs : s = ""
  · subst hs
    have h0 : ("" : String).utf8ByteSize = 0 := rfl
    simp [localCreateAnn, posXYZ, JsVal.getField, getF, JsVal.truthy,
      JsVal.isNumber, JsVal.isString, JsVal.asString, response, h0]
  · by_cases hb : s.utf8ByteSize ≤ 256
    · simp [localCreateAnn, posXYZ, JsVal.getField, getF, JsVal.truthy,
        JsVal.isNumber, JsVal.isString, JsVal.asString, response, hs, hb,
        Nat.not_lt.mpr hb]
    · simp [localCreateAnn, posXYZ, JsVal.getField, getF, JsVal.truthy,
        JsVal.isNumber, JsVal.isString, JsVal.asString, response, hs, hb,
        Nat.lt_of_not_le hb]

theorem updateAnn_status_text (items : List JsVal) (s id now : String) :
    (updateAnn items id (some (.jsObj [("text", .jsStr s)])) now).1.status
      = if 256 < s.utf8ByteSize then 400 else 200 := by
  by_cases hs : s = ""
  · subst hs
    have h0 : ("" : String).utf8ByteSize = 0 := rfl
    cases hf : items.find? (fun it => keyMatch it id) <;>
      simp [updateAnn, JsVal.getField, getF, JsVal.truthy, JsVal.isString,
        JsVal.asString, response, h0, hf]
  · by_cases hb : 256 < s.utf8ByteSize
    · simp [updateAnn, JsVal.getField, getF, JsVal.truthy, JsVal.isString,
        JsVal.asString, response, hs, hb]
    · cases hf : items.find? (fun it => keyMatch it id) <;>
        simp [updateAnn, JsVal.getField, getF, JsVal.truthy, JsVal.isString,
          JsVal.asString, response, hs, hb, hf]

theorem localUpdateAnn_status_text (anns : List JsVal) (s id now : String)
    (huuid : uuidRegexTest id = true) :
    (localUpdateAnn anns id (.jsObj [("text", .jsStr s)]) now).1.status
      = if 256 < s.utf8ByteSize then 400
        else
          match anns.find? (fun it => keyMatch it id) with
          | some _ => 200
          | none => 404 := by
  by_cases hs : s = ""
  · subst hs
    have h0 : ("" : String).utf8ByteSize = 0 := rfl
    cases hf : anns.find? (fun it => keyMatch it id) <;>
      simp [localUpdateAnn, JsVal.getField, getF, JsVal.truthy,
        JsVal.isString, JsVal.asString, response, h0, hf, huuid]
  · by_cases hb : 256 < s.utf8ByteSize
    · simp [localUpdateAnn, JsVal.getField, getF, JsVal.truthy,
        JsVal.isString, JsVal.asString, response, hs, hb, huuid]
    · cases hf : anns.find? (fun it => keyMatch it id) <;>
        simp [localUpdateAnn, JsVal.getField, getF, JsVal.truthy,
          JsVal.isString, JsVal.asString, response, hs, hb, hf, huuid]

/-- Claim C4 (confirmed): on both variants, a string `text` (defaulting to
`""` when empty) is accepted by annotation create exactly when its UTF-8
byte length is at most 256, and rejected with 400 `Text exceeds 256 bytes
limit` otherwise; update rejects with the same 400 exactly when the byte
length exceeds 256 (otherwise it proceeds: the networked upsert always
answers 200, the local variant 200 or 404 by existence).  The boundary is
in bytes, not characters: 256 ASCII bytes are accepted, while a string of
256 characters whose last character is the two-byte `é` (257 bytes) is
rejected by both create variants. -/
theorem c4_text_byte_limit :
    ∀ (items anns : List JsVal) (s id newId now : String),
      uuidRegexTest id = true →
      ((createAnn items
          (some (.jsObj [("position", posXYZ), ("text", .jsStr s)]))
          newId now).1.status
        = if s.utf8ByteSize ≤ 256 then 201 else 400) ∧
      ((localCreateAnn anns
          (.jsObj [("position", posXYZ), ("text", .jsStr s)])
          newId now).1.status
        = if s.utf8ByteSize ≤ 256 then 201 else 400) ∧
      ((updateAnn items id (some (.jsObj [("text", .jsStr s)])) now).1.status
        = if 256 < s.utf8ByteSize then 400 else 200) ∧
      ((localUpdateAnn anns id (.jsObj [("text", .jsStr s)]) now).1.status
        = if 256 < s.utf8ByteSize then 400
          else
            match anns.find? (fun it => keyMatch it id) with
            | some _ => 200
            | none => 404) ∧
      (String.mk (List.replicate 256 'a')).utf8ByteSize = 256 ∧
      (createAnn [] (some (.jsObj [("position", posXYZ),
          ("text", .jsStr (String.mk (List.replicate 256 'a')))])) "i" "T").1.status
        = 201 ∧
      (String.mk (List.replicate 255 'a') ++ "é").length = 256 ∧
      (String.mk (List.replicate 255 'a') ++ "é").utf8ByteSize = 257 ∧
      (createAnn [] (some (.jsObj [("position", posXYZ),
          ("text", .jsStr (String.mk (List.replicate 255 'a') ++ "é"))])) "i" "T").1.status
        = 400 ∧
      (localCreateAnn [] (.jsObj [("position", posXYZ),
          ("text", .jsStr (String.mk (List.replicate 255 'a') ++ "é"))]) "i" "T").1.status
        = 400 := by
  intro items anns s id newId now huuid
  refine ⟨createAnn_status_text items s newId now,
    localCreateAnn_status_text anns s newId now,
    updateAnn_status_text items s id now,
    localUpdateAnn_status_text anns s id now huuid,
    by set_option maxRecDepth 8000 in decide,
    ?_, by set_option maxRecDepth 8000 in decide,
    by set_option maxRecDepth 8000 in decide, ?_, ?_⟩
  · rw [createAnn_status_text]
    set_option maxRecDepth 8000 in decide
  · rw [createAnn_status_text]
    set_option maxRecDepth 8000 in decide
  · rw [localCreateAnn_status_text]
    set_option maxRecDepth 8000 in decide

/-- Witness for C4 at the concrete text `"hi"` and a concrete UUID. -/
theorem c4_witness :
    (createAnn [] (some (.jsObj [("position", posXYZ), ("text", .jsStr "hi")]))
        "i" "T").1.status
      = if ("hi" : String).utf8ByteSize ≤ 256 then 201 else 400 :=
  (c4_text_byte_limit [] [] "hi" "bbbbbbbb-bbbb-bbbb-bbbb-bbbbbbbbbbbb"
      "i" "T" (by decide)).1

/-- Claim C6 counterexample: the local variant does not implement the
`pointCloudId` filter.  With a store holding one annotation whose
`pointCloudId` is `null`, a local list request carrying the filter
`dddddddd-dddd-dddd-dddd-dddddddddddd` still returns that annotation,
while the networked variant's filtered scan returns the empty list — so
the claimed behaviour does not hold in both variants. -/
theorem c6_counterexample_local_ignores_filter :
    (localDispatch
        [.jsObj [("id", .jsStr "cccccccc-cccc-cccc-cccc-cccccccccccc"),
          ("pointCloudId", .jsNull)]]
        .get ["annotations"] (some "dddddddd-dddd-dddd-dddd-dddddddddddd")
        .jsNull "i" "T").1
      = response 200 (.jsArr
          [.jsObj [("id", .jsStr "cccccccc-cccc-cccc-cccc-cccccccccccc"),
            ("pointCloudId", .jsNull)]]) ∧
    (JsVal.jsObj [("id", .jsStr "cccccccc-cccc-cccc-cccc-cccccccccccc"),
        ("pointCloudId", .jsNull)]).getField "pointCloudId" = .jsNull ∧
    JsVal.jsNull ≠ .jsStr "dddddddd-dddd-dddd-dddd-dddddddddddd" ∧
    getAnns
        [.jsObj [("id", .jsStr "cccccccc-cccc-cccc-cccc-cccccccccccc"),
          ("pointCloudId", .jsNull)]]
        (some "dddddddd-dddd-dddd-dddd-dddddddddddd")
      = response 200 (.jsArr []) := by
  refine ⟨rfl, rfl, ?_, rfl⟩
  intro h
  cases h

/-- Claim C6 (amended): the networked variant's filtered list returns
exactly the annotations whose `pointCloudId` attribute equals the string
filter value — in particular a `null` `pointCloudId` is never included —
but the local variant ignores the `pointCloudId` query parameter entirely
and returns every stored annotation, so the property holds only in the
networked variant. -/
theorem c6_filter_exact_networked_only :
    (∀ (items : List JsVal) (pcId : String) (it : JsVal), pcId ≠ "" →
      getAnns items (some pcId)
        = response 200 (.jsArr (items.filter fun x => pcMatch x pcId)) ∧
      ((it ∈ items.filter fun x => pcMatch x pcId)
        ↔ it ∈ items ∧ it.getField "pointCloudId" = .jsStr pcId) ∧
      (it.getField "pointCloudId" = .jsNull →
        it ∉ items.filter fun x => pcMatch x pcId)) ∧
    (∀ (anns : List JsVal) (q : Option String) (b : JsVal) (i n : String),
      localDispatch anns .get ["annotations"] q b i n
        = (response 200 (.jsArr anns), anns)) := by
  constructor
  · intro items pcId it hne
    refine ⟨?_, ?_, ?_⟩
    · simp [getAnns, strTruthy, hne]
    · simp [List.mem_filter, pcMatch_iff]
    · intro hnull hmem
      rw [List.mem_filter] at hmem
      have hpc := (pcMatch_iff it pcId).mp hmem.2
      rw [hnull] at hpc
      cases hpc
  · intro anns q b i n
    rfl

/-- Claim C7 counterexample: the local variant registers no
`DELETE /pointclouds/:id` route, so a request with the malformed id
`not-a-uuid` there falls through to the framework fallback and answers
404, not the claimed 400 — the identifier-format check is not applied in
both variants for that route. -/
theorem c7_counterexample_local_pointcloud_route_missing :
    uuidRegexTest "not-a-uuid" = false ∧
    localDispatch [] .delete ["pointclouds", "not-a-uuid"] none .jsNull "i" "T"
      = ({ status := 404, body := none }, []) ∧
    (404 : Nat) ≠ 400 :=
  ⟨by decide, rfl, by decide⟩

/-- Claim C7 (amended): for every id failing the UUID regex, the three
networked mutating routes and the two local annotation routes answer 400
`Invalid ... ID format` without touching any store; but the local variant
has no point-cloud routes, so `DELETE /pointclouds/{id}` there answers the
framework 404 for every id (again without touching storage) instead of
the claimed 400. -/
theorem c7_invalid_id_rejected_before_storage :
    ∀ (anns pcs : List JsVal) (id : String) (q : Option String)
      (b : Option JsVal) (bl : JsVal) (newId now : String),
      uuidRegexTest id = false →
      netDispatch anns pcs .put ["annotations", id] (some id) q b newId now
        = (response 400 (errObj "Invalid annotation ID format"), anns, pcs) ∧
      netDispatch anns pcs .delete ["annotations", id] (some id) q b newId now
        = (response 400 (errObj "Invalid annotation ID format"), anns, pcs) ∧
      netDispatch anns pcs .delete ["pointclouds", id] (some id) q b newId now
        = (response 400 (errObj "Invalid point cloud ID format"), anns, pcs) ∧
      localDispatch anns .put ["annotations", id] q bl newId now
        = (response 400 (errObj "Invalid annotation ID format"), anns) ∧
      localDispatch anns .delete ["annotations", id] q bl newId now
        = (response 400 (errObj "Invalid annotation ID format"), anns) ∧
      localDispatch anns .delete ["pointclouds", id] q bl newId now
        = ({ status := 404, body := none }, anns) := by
  intro anns pcs id q b bl newId now h
  refine ⟨?_, ?_, ?_, ?_, ?_, ?_⟩ <;>
    simp [netDispatch, localDispatch, localUpdateAnn, localDeleteAnn, h]

/-- Witness for C7 at the malformed id `not-a-uuid`. -/
theorem c7_witness :
    netDispatch [] [] .put ["annotations", "not-a-uuid"] (some "not-a-uuid")
        none none "i" "T"
      = (response 400 (errObj "Invalid annotation ID format"), [], []) :=
  (c7_invalid_id_rejected_before_storage [] [] "not-a-uuid" none none .jsNull
      "i" "T" (by decide)).1

theorem updateAnn_found (items : List JsVal) (id s now : String) (r : JsVal)
    (hb : s.utf8ByteSize ≤ 256)
    (hf : items.find? (fun it => keyMatch it id) = some r) :
    updateAnn items id (some (.jsObj [("text", .jsStr s)])) now
      = (response 200 (updRec (.jsStr s) now r),
         replaceFirst items id (updRec (.jsStr s) now)) := by
  by_cases hs : s = ""
  · subst hs
    simp [updateAnn, JsVal.getField, getF, JsVal.truthy, JsVal.isString,
      JsVal.asString, hf]
  · simp [updateAnn, JsVal.getField, getF, JsVal.truthy, JsVal.isString,
      JsVal.asString, hs, Nat.not_lt.mpr hb, hf]

theorem localUpdateAnn_found (items : List JsVal) (id s now : String)
    (r : JsVal) (hb : s.utf8ByteSize ≤ 256)
    (huuid : uuidRegexTest id = true)
    (hf : items.find? (fun it => keyMatch it id) = some r) :
    localUpdateAnn items id (.jsObj [("text", .jsStr s)]) now
      = (response 200 (localUpdRec (.jsStr s) now r),
         replaceFirst items id (localUpdRec (.jsStr s) now)) := by
  by_cases hs : s = ""
  · subst hs
    simp [localUpdateAnn, JsVal.getField, getF, JsVal.truthy, JsVal.isString,
      JsVal.asString, huuid, hf]
  · simp [localUpdateAnn, JsVal.getField, getF, JsVal.truthy, JsVal.isString,
      JsVal.asString, huuid, hs, Nat.not_lt.mpr hb, hf]

theorem createAnn_appends (items : List JsVal) (b : Option JsVal)
    (newId now : String) :
    ∃ tail, (createAnn items b newId now).2 = items ++ tail := by
  match b with
  | none => exact ⟨[], by simp [createAnn]⟩
  | some data =>
    simp only [createAnn]
    repeat' split
    all_goals first
      | exact ⟨_, rfl⟩
      | exact ⟨[], by simp⟩

theorem localCreateAnn_appends (anns : List JsVal) (data : JsVal)
    (newId now : String) :
    ∃ tail, (localCreateAnn anns data newId now).2 = anns ++ tail := by
  simp only [localCreateAnn]
  repeat' split
  all_goals first
    | exact ⟨_, rfl⟩
    | exact ⟨[], by simp⟩

theorem removeFirst_sublist (items : List JsVal) (id : String) :
    (removeFirst items id).Sublist items := by
  induction items with
  | nil => simp [removeFirst]
  | cons it rest ih =>
    by_cases hk : keyMatch it id = true
    · simp only [removeFirst, hk, if_true]
      exact List.Sublist.cons it (List.Sublist.refl rest)
    · simp only [removeFirst, hk, if_false, Bool.false_eq_true]
      exact List.Sublist.cons₂ it ih

/-- Claim C9 (confirmed): updating an existing record rewrites only its
`text` and `updatedAt` fields, in both variants: the update produces
exactly the post-update record (`updRec`/`localUpdRec`, the stored `SET` /
spread result) in place of the found record, and that record agrees with
the old one on `id`, `position`, `createdAt`, `pointCloudId`,
`cameraPosition` and `cameraTarget`.  Moreover `createdAt` is never
modified by any other operation after creation: create only appends to
the store (both variants), and delete only removes (the resulting store
is a sublist of the old one). -/
theorem c9_update_changes_only_text_and_updatedAt :
    ∀ (items : List JsVal) (id s now : String) (r : JsVal),
      s.utf8ByteSize ≤ 256 →
      uuidRegexTest id = true →
      items.find? (fun it => keyMatch it id) = some r →
      (updateAnn items id (some (.jsObj [("text", .jsStr s)])) now
        = (response 200 (updRec (.jsStr s) now r),
           replaceFirst items id (updRec (.jsStr s) now)) ∧
       (replaceFirst items id (updRec (.jsStr s) now)).find?
          (fun it => keyMatch it id) = some (updRec (.jsStr s) now r) ∧
       (updRec (.jsStr s) now r).getField "id" = r.getField "id" ∧
       (updRec (.jsStr s) now r).getField "position"
         = r.getField "position" ∧
       (updRec (.jsStr s) now r).getField "createdAt"
         = r.getField "createdAt" ∧
       (updRec (.jsStr s) now r).getField "pointCloudId"
         = r.getField "pointCloudId" ∧
       (updRec (.jsStr s) now r).getField "cameraPosition"
         = r.getField "cameraPosition" ∧
       (updRec (.jsStr s) now r).getField "cameraTarget"
         = r.getField "cameraTarget") ∧
      (localUpdateAnn items id (.jsObj [("text", .jsStr s)]) now
        = (response 200 (localUpdRec (.jsStr s) now r),
           replaceFirst items id (localUpdRec (.jsStr s) now)) ∧
       (replaceFirst items id (localUpdRec (.jsStr s) now)).find?
          (fun it => keyMatch it id) = some (localUpdRec (.jsStr s) now r) ∧
       (localUpdRec (.jsStr s) now r).getField "id" = r.getField "id" ∧
       (localUpdRec (.jsStr s) now r).getField "position"
         = r.getField "position" ∧
       (localUpdRec (.jsStr s) now r).getField "createdAt"
         = r.getField "createdAt" ∧
       (localUpdRec (.jsStr s) now r).getField "pointCloudId"
         = r.getField "pointCloudId" ∧
       (localUpdRec (.jsStr s) now r).getField "cameraPosition"
         = r.getField "cameraPosition" ∧
       (localUpdRec (.jsStr s) now r).getField "cameraTarget"
         = r.getField "cameraTarget") ∧
      (∀ (b : Option JsVal) (newId : String),
        ∃ tail, (createAnn items b newId now).2 = items ++ tail) ∧
      (∀ (d : JsVal) (newId : String),
        ∃ tail, (localCreateAnn items d newId now).2 = items ++ tail) ∧
      (∀ (id' : String), ((deleteAnn items id').2).Sublist items) := by
  intro items id s now r hb huuid hf
  refine ⟨⟨updateAnn_found items id s now r hb hf,
      find?_replaceFirst items id _ (fun it => keyMatch_updRec _ _ it id) r hf,
      ?_, ?_, ?_, ?_, ?_, ?_⟩,
    ⟨localUpdateAnn_found items id s now r hb huuid hf,
      find?_replaceFirst items id _
        (fun it => keyMatch_localUpdRec _ _ it id) r hf,
      ?_, ?_, ?_, ?_, ?_, ?_⟩,
    fun b newId => createAnn_appends items b newId now,
    fun d newId => localCreateAnn_appends items d newId now,
    ?_⟩
  · exact getField_updRec_ne _ _ _ _ (by decide) (by decide)
  · exact getField_updRec_ne _ _ _ _ (by decide) (by decide)
  · exact getField_updRec_ne _ _ _ _ (by decide) (by decide)
  · exact getField_updRec_ne _ _ _ _ (by decide) (by decide)
  · exact getField_updRec_ne _ _ _ _ (by decide) (by decide)
  · exact getField_updRec_ne _ _ _ _ (by decide) (by decide)
  · exact getField_localUpdRec_ne _ _ _ _ (by decide) (by decide)
  · exact getField_localUpdRec_ne _ _ _ _ (by decide) (by decide)
  · exact getField_localUpdRec_ne _ _ _ _ (by decide) (by decide)
  · exact getField_localUpdRec_ne _ _ _ _ (by decide) (by decide)
  · exact getField_localUpdRec_ne _ _ _ _ (by decide) (by decide)
  · exact getField_localUpdRec_ne _ _ _ _ (by decide) (by decide)
  · intro id'
    by_cases ha : items.any (fun it => keyMatch it id') = true
    · simp only [deleteAnn, ha, if_true]
      exact removeFirst_sublist items id'
    · simp only [deleteAnn, ha, Bool.false_eq_true, if_false]
      exact List.Sublist.refl items

/-- Witness for C9: updating the single stored record with text `"new"`
yields exactly the `SET`-updated record, whose `createdAt` is the original
`"T0"`. -/
theorem c9_witness :
    updateAnn
        [.jsObj [("id", .jsStr "eeeeeeee-eeee-eeee-eeee-eeeeeeeeeeee"),
          ("text", .jsStr "old"), ("createdAt", .jsStr "T0")]]
        "eeeeeeee-eeee-eeee-eeee-eeeeeeeeeeee"
        (some (.jsObj [("text", .jsStr "new")])) "T1"
      = (response 200 (updRec (.jsStr "new") "T1"
          (.jsObj [("id", .jsStr "eeeeeeee-eeee-eeee-eeee-eeeeeeeeeeee"),
            ("text", .jsStr "old"), ("createdAt", .jsStr "T0")])),
         replaceFirst
          [.jsObj [("id", .jsStr "eeeeeeee-eeee-eeee-eeee-eeeeeeeeeeee"),
            ("text", .jsStr "old"), ("createdAt", .jsStr "T0")]]
          "eeeeeeee-eeee-eeee-eeee-eeeeeeeeeeee"
          (updRec (.jsStr "new") "T1")) :=
  (c9_update_changes_only_text_and_updatedAt
      [.jsObj [("id", .jsStr "eeeeeeee-eeee-eeee-eeee-eeeeeeeeeeee"),
        ("text", .jsStr "old"), ("createdAt", .jsStr "T0")]]
      "eeeeeeee-eeee-eeee-eeee-eeeeeeeeeeee" "new" "T1"
      (.jsObj [("id", .jsStr "eeeeeeee-eeee-eeee-eeee-eeeeeeeeeeee"),
        ("text", .jsStr "old"), ("createdAt", .jsStr "T0")])
      (by decide) (by decide) rfl).1.1

theorem createAnn_localCreateAnn_status (items anns : List JsVal)
    (data : JsVal) (newId now : String) :
    (createAnn items (some data) newId now).1.status
      = (localCreateAnn anns data newId now).1.status := by
  simp only [createAnn, localCreateAnn]
  split_ifs <;> rfl

/-- Claim C2 counterexample: the local variant registers no point-cloud
routes, so the same valid `POST /pointclouds` request is answered 201 by
the networked variant but 404 by the local variant — a different
status-code class for a request of the shared CRUD surface. -/
theorem c2_counterexample_pointcloud_create_diverges :
    (netDispatch [] [] .post ["pointclouds"] none none
        (some (.jsObj [("name", .jsStr "scan"), ("path", .jsStr "data/set")]))
        "22222222-2222-2222-2222-222222222222" "T").1.status = 201 ∧
    (localDispatch [] .post ["pointclouds"] none
        (.jsObj [("name", .jsStr "scan"), ("path", .jsStr "data/set")])
        "22222222-2222-2222-2222-222222222222" "T").1.status = 404 ∧
    (201 : Nat) ≠ 404 :=
  ⟨rfl, rfl, by decide⟩

/-- Claim C2 (amended): the two variants agree on annotation delete
(same status in every case — malformed id, missing id, existing id — and
the same resulting store), on the unfiltered annotation list (identical
200 response and untouched stores), and on the status of annotation
create for every object payload; they do NOT agree elsewhere: the local
variant has no point-cloud routes (see the counterexample), ignores the
`pointCloudId` list filter (claim C6), drops `pointCloudId` from created
records, and diverges on update of a missing id (claim C1). -/
theorem c2_variants_agree_on_delete_list_create_status :
    (∀ (anns pcs : List JsVal) (id : String) (q : Option String)
        (b : Option JsVal) (bl : JsVal) (newId now : String),
      (netDispatch anns pcs .delete ["annotations", id] (some id) q b
          newId now).1.status
        = (localDispatch anns .delete ["annotations", id] q bl
            newId now).1.status ∧
      (netDispatch anns pcs .delete ["annotations", id] (some id) q b
          newId now).2.1
        = (localDispatch anns .delete ["annotations", id] q bl
            newId now).2) ∧
    (∀ (anns pcs : List JsVal) (pid : Option String) (b : Option JsVal)
        (bl : JsVal) (newId now : String),
      netDispatch anns pcs .get ["annotations"] pid none b newId now
        = (response 200 (.jsArr anns), anns, pcs) ∧
      localDispatch anns .get ["annotations"] none bl newId now
        = (response 200 (.jsArr anns), anns)) ∧
    (∀ (anns pcs : List JsVal) (fs : List (String × JsVal)) (newId now : String),
      (netDispatch anns pcs .post ["annotations"] none none
          (some (.jsObj fs)) newId now).1.status
        = (localDispatch anns .post ["annotations"] none (.jsObj fs)
            newId now).1.status) := by
  refine ⟨?_, ?_, ?_⟩
  · intro anns pcs id q b bl newId now
    cases hu : uuidRegexTest id with
    | false =>
      simp [netDispatch, localDispatch, localDeleteAnn, hu, response]
    | true =>
      cases ha : anns.any (fun it => keyMatch it id) with
      | false =>
        simp [netDispatch, localDispatch, deleteAnn, localDeleteAnn, hu, ha,
          response]
      | true =>
        simp [netDispatch, localDispatch, deleteAnn, localDeleteAnn, hu, ha,
          response]
  · intro anns pcs pid b bl newId now
    exact ⟨rfl, rfl⟩
  · intro anns pcs fs newId now
    exact createAnn_localCreateAnn_status anns anns (.jsObj fs) newId now

/-- Claim C10 counterexample: the networked variant's successful delete is
`response(204, null)`, whose body is `JSON.stringify(null)` — the
four-byte text `null`, serialized content rather than the claimed empty
body (modelled as `some .jsNull ≠ none`). -/
theorem c10_counterexample_networked_delete_body_not_empty :
    deleteAnn [.jsObj [("id", .jsStr "ffffffff-ffff-ffff-ffff-ffffffffffff")]]
        "ffffffff-ffff-ffff-ffff-ffffffffffff"
      = (response 204 .jsNull, []) ∧
    (response 204 JsVal.jsNull).body = some .jsNull ∧
    some JsVal.jsNull ≠ (none : Option JsVal) :=
  ⟨rfl, rfl, by simp⟩

/-- Claim C10 (amended): successful deletes carry status 204 in both
variants, but only the local variant sends a truly empty body — the
networked variant serializes `null` into the body text `null`.  The other
status codes are as claimed: annotation create success is 201 with the
created record as JSON body (networked variant shown; the local variant's
create is covered by claim C4), list success is 200 with a JSON array
body, and update success is 200 with the updated record as JSON body in
both variants. -/
theorem c10_status_mapping :
    (∀ (anns : List JsVal) (id : String),
      anns.any (fun it => keyMatch it id) = true →
      (deleteAnn anns id).1 = { status := 204, body := some .jsNull } ∧
      (uuidRegexTest id = true →
        (localDeleteAnn anns id).1 = { status := 204, body := none })) ∧
    (∀ (pcs : List JsVal) (id : String),
      pcs.any (fun it => keyMatch it id) = true →
      (deletePointCloud pcs id).1
        = { status := 204, body := some .jsNull }) ∧
    (∀ (items : List JsVal) (q : Option String),
      (getAnns items q).status = 200 ∧
      ∃ l, (getAnns items q).body = some (.jsArr l)) ∧
    (∀ (items : List JsVal) (s newId now : String),
      s.utf8ByteSize ≤ 256 →
      ∃ rec, (createAnn items
          (some (.jsObj [("position", posXYZ), ("text", .jsStr s)]))
          newId now).1 = response 201 rec) ∧
    (∀ (items : List JsVal) (id s now : String) (r : JsVal),
      s.utf8ByteSize ≤ 256 →
      items.find? (fun it => keyMatch it id) = some r →
      (updateAnn items id (some (.jsObj [("text", .jsStr s)])) now).1
        = response 200 (updRec (.jsStr s) now r) ∧
      (uuidRegexTest id = true →
        (localUpdateAnn items id (.jsObj [("text", .jsStr s)]) now).1
          = response 200 (localUpdRec (.jsStr s) now r))) := by
  refine ⟨?_, ?_, ?_, ?_, ?_⟩
  · intro anns id ha
    constructor
    · simp [deleteAnn, ha, response]
    · intro hu
      simp [localDeleteAnn, hu, ha]
  · intro pcs id hp
    simp [deletePointCloud, hp, response]
  · intro items q
    constructor
    · by_cases ht : strTruthy q = true <;> simp [getAnns, ht, response]
    · by_cases ht : strTruthy q = true
      · exact ⟨items.filter fun it => pcMatch it (q.getD ""),
          by simp [getAnns, ht, response]⟩
      · exact ⟨items, by simp [getAnns, ht, response]⟩
  · intro items s newId now hb
    refine ⟨.jsObj [("id", .jsStr newId), ("pointCloudId", .jsNull),
      ("position", .jsObj [("x", .jsNum 1), ("y", .jsNum 2),
        ("z", .jsNum 3)]),
      ("text", .jsStr s), ("cameraPosition", .jsNull),
      ("cameraTarget", .jsNull), ("createdAt", .jsStr now)], ?_⟩
    by_cases hs : s = ""
    · subst hs
      have h0 : ("" : String).utf8ByteSize = 0 := rfl
      simp [createAnn, posXYZ, JsVal.getField, getF, JsVal.truthy,
        JsVal.isNumber, JsVal.isString, JsVal.asString, h0]
    · simp [createAnn, posXYZ, JsVal.getField, getF, JsVal.truthy,
        JsVal.isNumber, JsVal.isString, JsVal.asString, hs,
        Nat.not_lt.mpr hb]
  · intro items id s now r hb hf
    constructor
    · rw [updateAnn_found items id s now r hb hf]
    · intro hu
      rw [localUpdateAnn_found items id s now r hb hu hf]
